import Mathlib

/-!
Verification of the alx-polly request-time validation and authorization layer.

This file gives a shallow embedding, in Lean, of the rule layer of the
alx-polly polling application: the input validators
(`src/app/lib/utils/input-validation.ts`), the poll read projection and the
vote submission protocol (the server actions in `app/lib/actions`), the
admin-route middleware (`src/lib/supabase/admin-middleware.ts`), and the
environment / client construction layer (`lib/utils/env-validation.ts`,
`lib/supabase/server.ts`).  Pure functions become Lean functions; the
backing store becomes an explicit `Database` value threaded through the
operations, together with a trace of the store operations each call
performs; a thrown JavaScript exception becomes the `Except.error` branch.
Strings are modelled by Lean's `String`, with JavaScript's
`String.prototype.trim` embedded as a structural function on the character
list so that concrete instances evaluate inside the kernel.
-/

set_option autoImplicit false

namespace AlxPolly

/-- Embedding of JavaScript `String.prototype.trim`: drop whitespace from
both ends of the string.  Defined structurally over the character list so
that it evaluates on concrete inputs. -/
def jsTrim (s : String) : String :=
  ⟨((s.data.dropWhile Char.isWhitespace).reverse.dropWhile Char.isWhitespace).reverse⟩

/-- Helper for `stripMarkup`: walk the character list, skipping everything
between an opening `<` and the next `>`. -/
def stripMarkupAux : List Char → Bool → List Char
  | [], _ => []
  | c :: cs, true => if c = '>' then stripMarkupAux cs false else stripMarkupAux cs true
  | c :: cs, false => if c = '<' then stripMarkupAux cs true else c :: stripMarkupAux cs false

/-- Modelled from the spec: `DOMPurify.sanitize` (the external
`isomorphic-dompurify` library, not part of this repository), which the spec
describes as "stripping all markup/script content, leaving plain text".
Modelled as removing every tag delimited by `<` and `>`. -/
def stripMarkup (s : String) : String :=
  ⟨stripMarkupAux s.data false⟩

/-- Result record returned by the validators in
`src/app/lib/utils/input-validation.ts`: a validity flag, an optional error
message and an optional sanitized value. -/
structure ValidationResult where
  isValid : Bool
  error : Option String
  sanitizedValue : Option String
  deriving DecidableEq, Repr

/-- Embedding of `validateQuestion` from
`src/app/lib/utils/input-validation.ts`, parameterized by the external
sanitizer (`DOMPurify.sanitize` in the source).  The JavaScript truthiness
check `if (!trimmedQuestion)` on a string is exactly the emptiness check. -/
def validateQuestion (sanitize : String → String) (question : String) : ValidationResult :=
  let trimmedQuestion := jsTrim question
  if trimmedQuestion = "" then
    { isValid := false, error := some "Poll question cannot be empty", sanitizedValue := none }
  else if trimmedQuestion.length < 5 then
    { isValid := false, error := some "Poll question must be at least 5 characters long",
      sanitizedValue := none }
  else if trimmedQuestion.length > 200 then
    { isValid := false, error := some "Poll question cannot exceed 200 characters",
      sanitizedValue := none }
  else
    { isValid := true, error := none, sanitizedValue := some (sanitize trimmedQuestion) }

/-- Result record of `validateOptions`.  In the source the sanitized list is
returned serialized, as `sanitizedValue := JSON.stringify(sanitizedOptions)`,
and every caller immediately applies `JSON.parse`; the round trip is the
identity, so the embedding carries the list itself. -/
structure OptionsValidationResult where
  isValid : Bool
  error : Option String
  sanitizedList : Option (List String)
  deriving DecidableEq, Repr

/-- The filtering step of `validateOptions`:
`options.map(opt => opt.trim()).filter(Boolean)` trims each entry and drops
the (falsy) empty strings. -/
def filteredOptions (options : List String) : List String :=
  (options.map jsTrim).filter (fun opt => opt != "")

/-- Embedding of `validateOptions` from
`src/app/lib/utils/input-validation.ts`, parameterized by the external
sanitizer: too few surviving entries, then duplicates, then over-long
entries are rejected in that order; otherwise each surviving entry is
sanitized independently. -/
def validateOptions (sanitize : String → String) (options : List String) :
    OptionsValidationResult :=
  let filteredOptions := filteredOptions options
  if filteredOptions.length < 2 then
    { isValid := false, error := some "Poll must have at least 2 non-empty options",
      sanitizedList := none }
  else if filteredOptions.dedup.length ≠ filteredOptions.length then
    { isValid := false, error := some "Poll options must be unique", sanitizedList := none }
  else if filteredOptions.any (fun opt => decide (opt.length > 100)) then
    { isValid := false, error := some "Poll options cannot exceed 100 characters",
      sanitizedList := none }
  else
    { isValid := true, error := none, sanitizedList := some (filteredOptions.map sanitize) }

theorem dedup_length_eq_iff_nodup {l : List String} :
    l.dedup.length = l.length ↔ l.Nodup := by
  constructor
  · intro h
    have hs : l.dedup.Sublist l := List.dedup_sublist l
    have he : l.dedup = l := hs.eq_of_length h
    rw [← he]
    exact List.nodup_dedup l
  · intro h
    rw [List.dedup_eq_self.mpr h]

/-- A poll option as stored in the poll record's `options` JSON column: the
id-based vote flow reads entries as objects carrying an `id`, a display
`text` and an embedded `votes` counter. -/
structure PollOpt where
  id : String
  text : String
  votes : Nat
  deriving DecidableEq, Repr

/-- A row of the `polls` table: id, question, options, owner `user_id` and
creation timestamp. -/
structure PollRow where
  id : String
  question : String
  options : List PollOpt
  user_id : String
  created_at : String
  deriving DecidableEq, Repr

/-- The option selected by a vote row: the index-based `submitVote` stores
an `option_index` column, the id-based one stores an `option_id` column. -/
inductive VoteSel where
  | byIndex (i : Nat)
  | byId (s : String)
  deriving DecidableEq, Repr

/-- A row of the `votes` table. -/
structure VoteRow where
  poll_id : String
  user_id : String
  sel : VoteSel
  deriving DecidableEq, Repr

/-- State of the backing store: the `polls`, `votes` and `user_roles`
tables, plus the error message the store attaches when its uniqueness
constraint on `(poll_id, user_id)` rejects a votes insert (surfaced by the
actions as `error.message`). -/
structure Database where
  polls : List PollRow
  votes : List VoteRow
  roles : List (String × String)
  uniqueViolationMsg : String
  deriving DecidableEq, Repr

/-- Embedding of the `user_roles` lookup
`.from('user_roles').select('role').eq('user_id', uid).single()`:
the role of the first matching row, if any. -/
def lookupRole (roles : List (String × String)) (uid : String) : Option String :=
  (roles.find? (fun r => r.fst == uid)).map (fun r => r.snd)

/-- Value returned by `getPollById`: a store error (`{poll: null, error}`),
the full row (`{poll: data, error: null, isOwner}`), or the public
projection (`{poll: {id, question, options, created_at}, error: null,
isOwner: false}`). -/
inductive GetPollResult where
  | dbError (msg : String)
  | fullPoll (poll : PollRow) (isOwner : Bool)
  | publicPoll (id : String) (question : String) (options : List PollOpt) (created_at : String)
  deriving DecidableEq, Repr

/-- Embedding of `getPollById` (poll actions, `src/unnamed/part_004` lines
128-200): fetch the row by id (`.single()` yields an error when no row
matches, surfaced as `error.message`); anonymous callers get the public
projection; a logged-in caller gets the full row when they own it, else
their role is looked up and admins get the full row (with `isOwner` as
computed); everyone else gets the public projection. -/
def getPollById (db : Database) (caller : Option String) (pollId : String) : GetPollResult :=
  match db.polls.find? (fun p => p.id == pollId) with
  | none => .dbError "Poll not found"
  | some data =>
    match caller with
    | none => .publicPoll data.id data.question data.options data.created_at
    | some uid =>
      let isOwner := uid == data.user_id
      if isOwner then
        .fullPoll data isOwner
      else if lookupRole db.roles uid == some "admin" then
        .fullPoll data isOwner
      else
        .publicPoll data.id data.question data.options data.created_at

/-- An admin-prefixed request as seen by `checkAdminAccess`
(`src/lib/supabase/admin-middleware.ts`): whether the Supabase environment
variables are present, the user resolved from the session cookies (when the
configuration allows resolving one), whether the `user_roles` lookup fails
at the store level, the `user_roles` table, and the cookie set the session
refresh (`setAll` during `supabase.auth.getUser()`) placed on the prepared
`response` object. -/
structure AdminRequest where
  hasConfig : Bool
  user : Option String
  roleLookupFails : Bool
  roles : List (String × String)
  refreshedCookies : List (String × String)
  deriving DecidableEq, Repr

/-- Response produced by the middleware: a redirect built fresh by
`NextResponse.redirect(url)` (carrying the cookies explicitly set on it,
which the source never sets, hence `[]` in every redirect the code builds),
or the pass-through `NextResponse.next` response carrying the refreshed
session cookies. -/
inductive AdminResponse where
  | redirect (path : String) (cookies : List (String × String))
  | next (cookies : List (String × String))
  deriving DecidableEq, Repr

/-- Embedding of `checkAdminAccess` (`src/lib/supabase/admin-middleware.ts`
lines 4-69):  missing configuration redirects to `/login`; no resolved user
redirects to `/login`; a failed role lookup, a missing role row or a
non-admin role redirects to `/unauthorized`; an admin is allowed through
with the `response` object that carries the refreshed cookies.  Every
redirect is built fresh with `NextResponse.redirect(url)`, so its cookie
set is empty. -/
def checkAdminAccess (req : AdminRequest) : AdminResponse :=
  if !req.hasConfig then
    .redirect "/login" []
  else
    match req.user with
    | none => .redirect "/login" []
    | some uid =>
      if req.roleLookupFails then
        .redirect "/unauthorized" []
      else
        match lookupRole req.roles uid with
        | none => .redirect "/unauthorized" []
        | some role =>
          if role != "admin" then .redirect "/unauthorized" []
          else .next req.refreshedCookies

/-- Outcome of `supabase.auth.getUser()` as the actions see it: a reported
auth error (`userError`), no user (anonymous), or a resolved user id. -/
inductive AuthResult where
  | authError (msg : String)
  | anon
  | user (uid : String)
  deriving DecidableEq, Repr

/-- A store operation performed by a vote submission, recorded in order:
the existence check on `votes`, an insert into `votes`, the poll fetch, and
the poll `options` update. -/
inductive StoreOp where
  | selectVotes (pollId : String) (userId : String)
  | insertVote (v : VoteRow)
  | selectPoll (pollId : String)
  | updatePollOptions (pollId : String) (opts : List PollOpt)
  deriving DecidableEq, Repr

/-- Value returned by a vote submission: `{error: message}`,
`{error: null}` (the index-based implementation's success shape), or
`{success: true}` (the id-based implementation's success shape). -/
inductive SubmitResult where
  | errMsg (s : String)
  | okNull
  | okSuccess
  deriving DecidableEq, Repr

/-- Embedding of the index-based `submitVote` (poll actions,
`src/unnamed/part_003` lines 548-589).  The pre-check reads the `votes`
table as it is at call time; `concurrent` is the list of rows other
requests commit between the pre-check and the insert, so the store's
uniqueness constraint evaluates the insert against
`db.votes ++ concurrent` and rejects it with `db.uniqueViolationMsg` when a
row for the same `(poll_id, user_id)` already landed.  Returns the result,
the store state after the call, and the trace of store operations
performed. -/
def submitVoteByIndex (db : Database) (auth : AuthResult) (concurrent : List VoteRow)
    (pollId : String) (optionIndex : Nat) : SubmitResult × Database × List StoreOp :=
  match auth with
  | .authError msg => (.errMsg msg, db, [])
  | .anon => (.errMsg "You must be logged in to vote.", db, [])
  | .user uid =>
    match db.votes.find? (fun v => v.poll_id == pollId && v.user_id == uid) with
    | some _ =>
      (.errMsg "You have already voted on this poll.", db, [.selectVotes pollId uid])
    | none =>
      let committed := db.votes ++ concurrent
      let row : VoteRow := ⟨pollId, uid, .byIndex optionIndex⟩
      if committed.any (fun v => v.poll_id == pollId && v.user_id == uid) then
        (.errMsg db.uniqueViolationMsg, { db with votes := committed },
          [.selectVotes pollId uid, .insertVote row])
      else
        (.okNull, { db with votes := committed ++ [row] },
          [.selectVotes pollId uid, .insertVote row])

/-- Embedding of the id-based `submitVote` (poll actions,
`src/unnamed/part_003` lines 669-740 and `src/unnamed/part_004` lines
366-437): after the same pre-check it fetches the poll, bumps the embedded
`votes` counter of the option whose `id` matches, inserts the vote row with
an `option_id` column, and writes the updated `options` back to the poll
row.  Concurrency at the insert is modelled as in `submitVoteByIndex`. -/
def submitVoteById (db : Database) (auth : AuthResult) (concurrent : List VoteRow)
    (pollId : String) (optionId : String) : SubmitResult × Database × List StoreOp :=
  match auth with
  | .authError msg => (.errMsg msg, db, [])
  | .anon => (.errMsg "You must be logged in to vote.", db, [])
  | .user uid =>
    match db.votes.find? (fun v => v.poll_id == pollId && v.user_id == uid) with
    | some _ =>
      (.errMsg "You have already voted on this poll.", db, [.selectVotes pollId uid])
    | none =>
      match db.polls.find? (fun p => p.id == pollId) with
      | none =>
        (.errMsg "Poll not found.", db, [.selectVotes pollId uid, .selectPoll pollId])
      | some poll =>
        let updatedOptions := poll.options.map (fun opt =>
          if opt.id == optionId then { opt with votes := opt.votes + 1 } else opt)
        let committed := db.votes ++ concurrent
        let row : VoteRow := ⟨pollId, uid, .byId optionId⟩
        if committed.any (fun v => v.poll_id == pollId && v.user_id == uid) then
          (.errMsg db.uniqueViolationMsg, { db with votes := committed },
            [.selectVotes pollId uid, .selectPoll pollId, .insertVote row])
        else
          (.okSuccess,
            { db with
              votes := committed ++ [row]
              polls := db.polls.map (fun p =>
                if p.id == pollId then { p with options := updatedOptions } else p) },
            [.selectVotes pollId uid, .selectPoll pollId, .insertVote row,
              .updatePollOptions pollId updatedOptions])

/-- Embedding of `getEnvVariable` (`lib/utils/env-validation.ts` lines
35-46): the process environment is a partial map from keys to values; a
missing or (falsy) empty value falls back to the default when one is given
and otherwise throws, which the embedding renders as `Except.error`. -/
def getEnvVariable (env : String → Option String) (key : String)
    (defaultValue : Option String) : Except String String :=
  match env key with
  | some v =>
    if v = "" then
      match defaultValue with
      | some d => .ok d
      | none => .error ("Environment variable " ++ key ++ " is not set")
    else .ok v
  | none =>
    match defaultValue with
    | some d => .ok d
    | none => .error ("Environment variable " ++ key ++ " is not set")

/-- The request-scoped Supabase client, reduced to the configuration it is
constructed from. -/
structure SupabaseClient where
  url : String
  anonKey : String
  deriving DecidableEq, Repr

/-- Embedding of the server `createClient` (`lib/supabase/server.ts` lines
4-33): reads both public environment variables through `getEnvVariable`
with no default, so a missing credential propagates as a thrown
exception. -/
def createClient (env : String → Option String) : Except String SupabaseClient := do
  let supabaseUrl ← getEnvVariable env "NEXT_PUBLIC_SUPABASE_URL" none
  let supabaseAnonKey ← getEnvVariable env "NEXT_PUBLIC_SUPABASE_ANON_KEY" none
  pure { url := supabaseUrl, anonKey := supabaseAnonKey }

/-- Embedding of `register` (auth actions, `src/unnamed/part_003` lines
199-218): awaits `createClient` with no `try`/`catch` — a thrown
configuration exception propagates — then returns
`{error: message | null}` from the backend's `signUp` outcome, which is
abstracted as the `signUpError` parameter. -/
def register (env : String → Option String) (signUpError : Option String) :
    Except String (Option String) :=
  match createClient env with
  | .error msg => .error msg
  | .ok _ =>
    match signUpError with
    | some msg => .ok (some msg)
    | none => .ok none

/-- Body of the `try` block of the guarded `login` (auth actions,
`src/unnamed/part_003` lines 151-170): `createClient` followed by the
backend's `signInWithPassword` outcome, abstracted as `signInError`. -/
def loginBody (env : String → Option String) (signInError : Option String) :
    Except String (Option String) :=
  match createClient env with
  | .error msg => .error msg
  | .ok _ =>
    match signInError with
    | some msg => .ok (some msg)
    | none => .ok none

/-- Embedding of the guarded `login`: the `catch` clause converts any
thrown exception into the fixed configuration error message, so `login`
itself never throws. -/
def login (env : String → Option String) (signInError : Option String) :
    Except String (Option String) :=
  match loginBody env signInError with
  | .ok r => .ok r
  | .error _ =>
    .ok (some "Authentication service unavailable. Please check your Supabase configuration.")

/-- C3: for every input string, `validateQuestion` trims it and rejects —
without sanitizing — the empty trimmed string, then trimmed length below 5,
then trimmed length above 200, in that order and with the corresponding
messages, all measured on the pre-sanitization trimmed text; every trimmed
input of length 5 to 200 is accepted with the sanitized trimmed text as
`sanitizedValue`; and the whitespace-only input `"   "` yields the error
"Poll question cannot be empty". -/
theorem validateQuestion_rules (sanitize : String → String) (q : String) :
    (jsTrim q = "" →
      validateQuestion sanitize q =
        { isValid := false, error := some "Poll question cannot be empty",
          sanitizedValue := none }) ∧
    (jsTrim q ≠ "" → (jsTrim q).length < 5 →
      validateQuestion sanitize q =
        { isValid := false, error := some "Poll question must be at least 5 characters long",
          sanitizedValue := none }) ∧
    ((jsTrim q).length > 200 →
      validateQuestion sanitize q =
        { isValid := false, error := some "Poll question cannot exceed 200 characters",
          sanitizedValue := none }) ∧
    (jsTrim q ≠ "" → 5 ≤ (jsTrim q).length → (jsTrim q).length ≤ 200 →
      validateQuestion sanitize q =
        { isValid := true, error := none, sanitizedValue := some (sanitize (jsTrim q)) }) ∧
    ((validateQuestion sanitize q).isValid = false →
      (validateQuestion sanitize q).sanitizedValue = none) ∧
    (∀ f : String → String, validateQuestion f "   " =
      { isValid := false, error := some "Poll question cannot be empty",
        sanitizedValue := none }) := by
  refine ⟨?_, ?_, ?_, ?_, ?_, ?_⟩
  · intro h
    simp [validateQuestion, h]
  · intro h1 h2
    simp [validateQuestion, h1, h2]
  · intro h
    have h1 : jsTrim q ≠ "" := by
      intro he
      rw [he] at h
      simp at h
    have h2 : ¬ (jsTrim q).length < 5 := by omega
    simp [validateQuestion, h1, h2, h]
  · intro h1 h2 h3
    have h4 : ¬ (jsTrim q).length < 5 := by omega
    have h5 : ¬ (jsTrim q).length > 200 := by omega
    simp [validateQuestion, h1, h4, h5]
  · intro h
    by_cases h1 : jsTrim q = ""
    · simp [validateQuestion, h1]
    · by_cases h2 : (jsTrim q).length < 5
      · simp [validateQuestion, h1, h2]
      · by_cases h3 : (jsTrim q).length > 200
        · simp [validateQuestion, h1, h2, h3]
        · simp [validateQuestion, h1, h2, h3] at h
  · intro f
    have h : jsTrim "   " = "" := by decide
    simp [validateQuestion, h]

theorem validateQuestion_rules_witness :
    validateQuestion stripMarkup "hello" =
      { isValid := true, error := none, sanitizedValue := some "hello" } :=
  (validateQuestion_rules stripMarkup "hello").2.2.2.1 (by decide) (by decide) (by decide)

/-- C4: for every input list, `validateOptions` trims the entries and drops
the empty ones, then rejects — in this order — fewer than 2 survivors, a
case-sensitive exact duplicate among the survivors, and a survivor longer
than 100 characters; otherwise it accepts with each survivor sanitized
independently.  `["A", "a"]` is accepted with sanitized list `["A", "a"]`
and `["Yes", "Yes "]` is rejected as a duplicate. -/
theorem validateOptions_rules (sanitize : String → String) (options : List String) :
    ((filteredOptions options).length < 2 →
      validateOptions sanitize options =
        { isValid := false, error := some "Poll must have at least 2 non-empty options",
          sanitizedList := none }) ∧
    (2 ≤ (filteredOptions options).length → ¬ (filteredOptions options).Nodup →
      validateOptions sanitize options =
        { isValid := false, error := some "Poll options must be unique",
          sanitizedList := none }) ∧
    (2 ≤ (filteredOptions options).length → (filteredOptions options).Nodup →
      (∃ opt ∈ filteredOptions options, opt.length > 100) →
      validateOptions sanitize options =
        { isValid := false, error := some "Poll options cannot exceed 100 characters",
          sanitizedList := none }) ∧
    (2 ≤ (filteredOptions options).length → (filteredOptions options).Nodup →
      (∀ opt ∈ filteredOptions options, opt.length ≤ 100) →
      validateOptions sanitize options =
        { isValid := true, error := none,
          sanitizedList := some ((filteredOptions options).map sanitize) }) ∧
    (validateOptions stripMarkup ["A", "a"] =
      { isValid := true, error := none, sanitizedList := some ["A", "a"] }) ∧
    (validateOptions stripMarkup ["Yes", "Yes "] =
      { isValid := false, error := some "Poll options must be unique",
        sanitizedList := none }) := by
  refine ⟨?_, ?_, ?_, ?_, by decide, by decide⟩
  · intro h
    simp [validateOptions, h]
  · intro h1 h2
    have hlt : ¬ (filteredOptions options).length < 2 := by omega
    have hd : (filteredOptions options).dedup.length ≠ (filteredOptions options).length :=
      fun he => h2 (dedup_length_eq_iff_nodup.mp he)
    simp [validateOptions, hlt, hd]
  · intro h1 h2 h3
    have hlt : ¬ (filteredOptions options).length < 2 := by omega
    have hd : (filteredOptions options).dedup.length = (filteredOptions options).length :=
      dedup_length_eq_iff_nodup.mpr h2
    have hany : (filteredOptions options).any (fun opt => decide (opt.length > 100)) = true := by
      rw [List.any_eq_true]
      obtain ⟨o, ho, hol⟩ := h3
      exact ⟨o, ho, by simpa using hol⟩
    simp [validateOptions, hlt, hd, hany]
  · intro h1 h2 h3
    have hlt : ¬ (filteredOptions options).length < 2 := by omega
    have hd : (filteredOptions options).dedup.length = (filteredOptions options).length :=
      dedup_length_eq_iff_nodup.mpr h2
    have hany : ¬ (filteredOptions options).any (fun opt => decide (opt.length > 100)) = true := by
      rw [List.any_eq_true]
      rintro ⟨o, ho, hgt⟩
      have hle := h3 o ho
      simp at hgt
      omega
    simp [validateOptions, hlt, hd, hany]

theorem validateOptions_rules_witness :
    validateOptions stripMarkup ["Red", "Blue"] =
      { isValid := true, error := none, sanitizedList := some ["Red", "Blue"] } :=
  (validateOptions_rules stripMarkup ["Red", "Blue"]).2.2.2.1 (by decide) (by decide)
    (by decide)

/-- C6 (amended): acceptance by the validators guarantees the poll invariant
measured on the pre-sanitization trimmed values — trimmed question length
5 to 200, at least 2 pairwise-distinct surviving options, each non-empty
and at most 100 characters — and the sanitized outputs are exactly the
sanitizer applied to those values.  (The bounds need not survive
sanitization; see the counterexample.) -/
theorem validators_presanitize_invariant (sanitize : String → String) (q : String)
    (options : List String) :
    ((validateQuestion sanitize q).isValid = true →
      5 ≤ (jsTrim q).length ∧ (jsTrim q).length ≤ 200 ∧
      (validateQuestion sanitize q).sanitizedValue = some (sanitize (jsTrim q))) ∧
    ((validateOptions sanitize options).isValid = true →
      2 ≤ (filteredOptions options).length ∧ (filteredOptions options).Nodup ∧
      (∀ opt ∈ filteredOptions options, opt ≠ "" ∧ opt.length ≤ 100) ∧
      (validateOptions sanitize options).sanitizedList =
        some ((filteredOptions options).map sanitize)) := by
  constructor
  · intro h
    by_cases h1 : jsTrim q = ""
    · simp [validateQuestion, h1] at h
    · by_cases h2 : (jsTrim q).length < 5
      · simp [validateQuestion, h1, h2] at h
      · by_cases h3 : (jsTrim q).length > 200
        · simp [validateQuestion, h1, h2, h3] at h
        · exact ⟨by omega, by omega, by simp [validateQuestion, h1, h2, h3]⟩
  · intro h
    by_cases h1 : (filteredOptions options).length < 2
    · simp [validateOptions, h1] at h
    · by_cases h2 : (filteredOptions options).dedup.length ≠ (filteredOptions options).length
      · simp [validateOptions, h1, h2] at h
      · by_cases h3 :
          (filteredOptions options).any (fun opt => decide (opt.length > 100)) = true
        · simp [validateOptions, h1, h2, h3] at h
        · refine ⟨by omega, dedup_length_eq_iff_nodup.mp (not_not.mp h2), ?_, ?_⟩
          · intro o ho
            constructor
            · have hm : (∃ a ∈ options, jsTrim a = o) ∧ ¬ o = "" := by
                simpa [filteredOptions] using ho
              exact hm.2
            · by_contra hlen
              apply h3
              rw [List.any_eq_true]
              refine ⟨o, ho, ?_⟩
              simp
              omega
          · simp [validateOptions, h1, h2, h3]

theorem validators_presanitize_invariant_witness :
    5 ≤ (jsTrim "hello world").length ∧ (filteredOptions ["Red", "Blue"]).Nodup :=
  ⟨((validators_presanitize_invariant stripMarkup "hello world" ["Red", "Blue"]).1
      (by decide)).1,
   (((validators_presanitize_invariant stripMarkup "hello world" ["Red", "Blue"]).2
      (by decide)).2).1⟩

/-- C6 counterexample: the accepted question `"<b></b>abc"` (trimmed length
10) sanitizes to `"abc"` of length 3 < 5, and the accepted option list
`["<i></i>", "plain"]` sanitizes to `["", "plain"]`, whose first entry is
empty — so the invariant does not hold on the sanitized output. -/
theorem validators_sanitized_invariant_cex :
    (validateQuestion stripMarkup "<b></b>abc").isValid = true ∧
    (validateQuestion stripMarkup "<b></b>abc").sanitizedValue = some "abc" ∧
    ¬ 5 ≤ ("abc" : String).length ∧
    (validateOptions stripMarkup ["<i></i>", "plain"]).isValid = true ∧
    (validateOptions stripMarkup ["<i></i>", "plain"]).sanitizedList =
      some ["", "plain"] := by
  decide

/-- C1: for every stored poll and caller identity, `getPollById` returns
the full row (owner id included, with the computed `isOwner` flag) exactly
for the owner and for callers whose fresh role lookup yields admin, and the
public projection — exactly id, question, options and creation timestamp,
owner id withheld — for every other caller, anonymous callers included. -/
theorem getPollById_projection (db : Database) (caller : Option String) (pollId : String)
    (p : PollRow) (hfind : db.polls.find? (fun q => q.id == pollId) = some p) :
    (∀ uid, caller = some uid →
      uid = p.user_id ∨ lookupRole db.roles uid = some "admin" →
      getPollById db caller pollId = .fullPoll p (uid == p.user_id)) ∧
    (∀ uid, caller = some uid → uid ≠ p.user_id →
      lookupRole db.roles uid ≠ some "admin" →
      getPollById db caller pollId = .publicPoll p.id p.question p.options p.created_at) ∧
    (caller = none →
      getPollById db caller pollId = .publicPoll p.id p.question p.options p.created_at) := by
  refine ⟨?_, ?_, ?_⟩
  · rintro uid rfl hor
    rcases hor with h | h
    · simp [getPollById, hfind, h]
    · by_cases ho : uid = p.user_id
      · simp [getPollById, hfind, ho]
      · simp [getPollById, hfind, ho, h]
  · rintro uid rfl hno hnadm
    simp [getPollById, hfind, hno, hnadm]
  · rintro rfl
    simp [getPollById, hfind]

/-- A concrete poll row used to evaluate the store operations on concrete
states. -/
def demoPoll : PollRow :=
  { id := "p1", question := "Best color?",
    options := [{ id := "o1", text := "Red", votes := 0 }],
    user_id := "owner1", created_at := "t0" }

/-- A concrete store state holding `demoPoll`, no votes, and one admin
role row. -/
def demoDb : Database :=
  { polls := [demoPoll], votes := [], roles := [("adm1", "admin")],
    uniqueViolationMsg := "dup" }

theorem getPollById_projection_witness :
    getPollById demoDb (some "owner1") "p1" = .fullPoll demoPoll true ∧
    getPollById demoDb (some "stranger") "p1" =
      .publicPoll "p1" "Best color?" [{ id := "o1", text := "Red", votes := 0 }] "t0" ∧
    getPollById demoDb none "p1" =
      .publicPoll "p1" "Best color?" [{ id := "o1", text := "Red", votes := 0 }] "t0" := by
  have h := getPollById_projection demoDb (some "owner1") "p1" demoPoll (by decide)
  have h2 := getPollById_projection demoDb (some "stranger") "p1" demoPoll (by decide)
  have h3 := getPollById_projection demoDb none "p1" demoPoll (by decide)
  refine ⟨?_, ?_, ?_⟩
  · simpa using h.1 "owner1" rfl (Or.inl rfl)
  · simpa [demoPoll] using h2.2.1 "stranger" rfl (by decide) (by decide)
  · simpa [demoPoll] using h3.2.2 rfl

/-- C2: on an admin-prefixed request, `checkAdminAccess` redirects to
`/login` whenever no authenticated user can be resolved (missing
configuration included), redirects to `/unauthorized` whenever the caller
is authenticated but the fresh role lookup fails, finds no row, or finds a
role other than admin, and lets the request proceed exactly when the fresh
lookup yields admin; every outcome is one of these three decisions, never
an error response. -/
theorem checkAdminAccess_decision (req : AdminRequest) :
    ((req.hasConfig = false ∨ req.user = none) →
      checkAdminAccess req = .redirect "/login" []) ∧
    (∀ uid, req.hasConfig = true → req.user = some uid →
      ((req.roleLookupFails = true ∨ lookupRole req.roles uid ≠ some "admin") →
        checkAdminAccess req = .redirect "/unauthorized" []) ∧
      (req.roleLookupFails = false → lookupRole req.roles uid = some "admin" →
        checkAdminAccess req = .next req.refreshedCookies)) ∧
    (checkAdminAccess req = .redirect "/login" [] ∨
      checkAdminAccess req = .redirect "/unauthorized" [] ∨
      checkAdminAccess req = .next req.refreshedCookies) := by
  refine ⟨?_, ?_, ?_⟩
  · rintro (h | h)
    · simp [checkAdminAccess, h]
    · by_cases hc : req.hasConfig = true
      · simp [checkAdminAccess, hc, h]
      · simp only [Bool.not_eq_true] at hc
        simp [checkAdminAccess, hc]
  · intro uid hc hu
    constructor
    · rintro (h | h)
      · simp [checkAdminAccess, hc, hu, h]
      · by_cases hf : req.roleLookupFails = true
        · simp [checkAdminAccess, hc, hu, hf]
        · simp only [Bool.not_eq_true] at hf
          rcases hr : lookupRole req.roles uid with _ | role
          · simp [checkAdminAccess, hc, hu, hf, hr]
          · have hne : role ≠ "admin" := by
              rintro rfl
              exact h hr
            simp [checkAdminAccess, hc, hu, hf, hr, hne]
    · intro hf hadm
      simp [checkAdminAccess, hc, hu, hf, hadm]
  · by_cases hc : req.hasConfig = true
    · rcases hu : req.user with _ | uid
      · left
        simp [checkAdminAccess, hc, hu]
      · by_cases hf : req.roleLookupFails = true
        · right; left
          simp [checkAdminAccess, hc, hu, hf]
        · simp only [Bool.not_eq_true] at hf
          rcases hr : lookupRole req.roles uid with _ | role
          · right; left
            simp [checkAdminAccess, hc, hu, hf, hr]
          · by_cases hadm : role = "admin"
            · right; right
              simp [checkAdminAccess, hc, hu, hf, hr, hadm]
            · right; left
              simp [checkAdminAccess, hc, hu, hf, hr, hadm]
    · left
      simp only [Bool.not_eq_true] at hc
      simp [checkAdminAccess, hc]

theorem checkAdminAccess_decision_witness :
    checkAdminAccess
      { hasConfig := true, user := some "u9", roleLookupFails := false,
        roles := [("u9", "admin")], refreshedCookies := [("sb", "tok")] } =
      .next [("sb", "tok")] :=
  ((checkAdminAccess_decision
      { hasConfig := true, user := some "u9", roleLookupFails := false,
        roles := [("u9", "admin")], refreshedCookies := [("sb", "tok")] }).2.1
    "u9" rfl rfl).2 rfl (by decide)

/-- C7 is violated by the code: on a request whose session refresh produced
a non-empty cookie set, the `/unauthorized` redirect is built fresh by
`NextResponse.redirect(url)` and carries no cookies at all, so the
refreshed cookie set is dropped on the redirect decision paths. -/
theorem checkAdminAccess_redirect_drops_refreshed_cookies :
    checkAdminAccess
      { hasConfig := true, user := some "u1", roleLookupFails := false,
        roles := [("u1", "user")],
        refreshedCookies := [("sb-access-token", "refreshed")] } =
      .redirect "/unauthorized" [] ∧
    ([("sb-access-token", "refreshed")] : List (String × String)) ≠ [] := by
  decide

/-- C5 (amended): both `submitVote` implementations check for an existing
vote row first and, when one exists, return the friendly duplicate-vote
error having performed only that read and no write; only when none exists
is the row inserted; but when the store's uniqueness constraint rejects the
insert (a concurrent vote that passed the pre-check), the surfaced result
is the store's own constraint-violation message (`error.message`), not the
friendly duplicate-vote error. -/
theorem submitVote_duplicate_protocol (db : Database) (uid : String) (pollId : String)
    (concurrent : List VoteRow) (optionIndex : Nat) (optionId : String) :
    ((∃ w, db.votes.find? (fun v => v.poll_id == pollId && v.user_id == uid) = some w) →
      submitVoteByIndex db (.user uid) concurrent pollId optionIndex =
        (.errMsg "You have already voted on this poll.", db, [.selectVotes pollId uid]) ∧
      submitVoteById db (.user uid) concurrent pollId optionId =
        (.errMsg "You have already voted on this poll.", db, [.selectVotes pollId uid])) ∧
    (db.votes.find? (fun v => v.poll_id == pollId && v.user_id == uid) = none →
      (db.votes ++ concurrent).any (fun v => v.poll_id == pollId && v.user_id == uid) = false →
      submitVoteByIndex db (.user uid) concurrent pollId optionIndex =
        (.okNull,
          { db with votes := (db.votes ++ concurrent) ++ [⟨pollId, uid, .byIndex optionIndex⟩] },
          [.selectVotes pollId uid, .insertVote ⟨pollId, uid, .byIndex optionIndex⟩])) ∧
    (db.votes.find? (fun v => v.poll_id == pollId && v.user_id == uid) = none →
      (db.votes ++ concurrent).any (fun v => v.poll_id == pollId && v.user_id == uid) = true →
      submitVoteByIndex db (.user uid) concurrent pollId optionIndex =
        (.errMsg db.uniqueViolationMsg, { db with votes := db.votes ++ concurrent },
          [.selectVotes pollId uid, .insertVote ⟨pollId, uid, .byIndex optionIndex⟩]) ∧
      ∀ poll, db.polls.find? (fun p => p.id == pollId) = some poll →
        (submitVoteById db (.user uid) concurrent pollId optionId).1 =
          .errMsg db.uniqueViolationMsg) := by
  refine ⟨?_, ?_, ?_⟩
  · rintro ⟨w, hw⟩
    constructor
    · simp [submitVoteByIndex, hw]
    · simp [submitVoteById, hw]
  · intro h1 h2
    simp [submitVoteByIndex, h1, h2]
  · intro h1 h2
    constructor
    · simp [submitVoteByIndex, h1, h2]
    · intro poll hp
      simp [submitVoteById, h1, h2, hp]

theorem submitVote_duplicate_protocol_witness :
    submitVoteByIndex
      { polls := [], votes := [⟨"p1", "u1", .byIndex 0⟩], roles := [],
        uniqueViolationMsg := "dup" }
      (.user "u1") [] "p1" 1 =
      (.errMsg "You have already voted on this poll.",
        { polls := [], votes := [⟨"p1", "u1", .byIndex 0⟩], roles := [],
          uniqueViolationMsg := "dup" },
        [.selectVotes "p1" "u1"]) :=
  ((submitVote_duplicate_protocol
      { polls := [], votes := [⟨"p1", "u1", .byIndex 0⟩], roles := [],
        uniqueViolationMsg := "dup" }
      "u1" "p1" [] 1 "o1").1 ⟨⟨"p1", "u1", .byIndex 0⟩, by decide⟩).1

/-- C5 counterexample: with no existing vote and a concurrent vote row
committed between the pre-check and the insert, the surfaced error is the
store's constraint-violation message, which differs from the friendly
duplicate-vote error the claim requires. -/
theorem submitVote_storeReject_cex :
    (submitVoteByIndex
        { polls := [], votes := [], roles := [],
          uniqueViolationMsg := "duplicate key value violates unique constraint" }
        (.user "u1") [⟨"p1", "u1", .byIndex 1⟩] "p1" 0).1 =
      .errMsg "duplicate key value violates unique constraint" ∧
    SubmitResult.errMsg "duplicate key value violates unique constraint" ≠
      .errMsg "You have already voted on this poll." := by
  decide

/-- C9: evaluated on the same store, caller and poll, the index-based and
the id-based `submitVote` return differently shaped results (`error: null`
against `success: true`), leave the store in different states (only the
id-based one mutates the poll's embedded counters, and the inserted vote
rows carry different columns), and perform different operation traces. -/
theorem submitVote_implementations_diverge :
    (submitVoteByIndex demoDb (.user "u1") [] "p1" 0).1 = .okNull ∧
    (submitVoteById demoDb (.user "u1") [] "p1" "o1").1 = .okSuccess ∧
    (submitVoteByIndex demoDb (.user "u1") [] "p1" 0).1 ≠
      (submitVoteById demoDb (.user "u1") [] "p1" "o1").1 ∧
    ((submitVoteByIndex demoDb (.user "u1") [] "p1" 0).2.1).polls = demoDb.polls ∧
    ((submitVoteById demoDb (.user "u1") [] "p1" "o1").2.1).polls =
      [{ demoPoll with options := [{ id := "o1", text := "Red", votes := 1 }] }] ∧
    ((submitVoteByIndex demoDb (.user "u1") [] "p1" 0).2.1).votes =
      [⟨"p1", "u1", .byIndex 0⟩] ∧
    ((submitVoteById demoDb (.user "u1") [] "p1" "o1").2.1).votes =
      [⟨"p1", "u1", .byId "o1"⟩] ∧
    (submitVoteByIndex demoDb (.user "u1") [] "p1" 0).2.2 ≠
      (submitVoteById demoDb (.user "u1") [] "p1" "o1").2.2 := by
  decide

/-- C10: with an anonymous caller both `submitVote` implementations return
the logged-in-required error immediately: the store state is returned
unchanged and the trace of store operations is empty, so no votes or polls
row is read or written. -/
theorem submitVote_anonymous_noop (db : Database) (concurrent : List VoteRow)
    (pollId : String) (optionIndex : Nat) (optionId : String) :
    submitVoteByIndex db .anon concurrent pollId optionIndex =
      (.errMsg "You must be logged in to vote.", db, []) ∧
    submitVoteById db .anon concurrent pollId optionId =
      (.errMsg "You must be logged in to vote.", db, []) :=
  ⟨rfl, rfl⟩

/-- C8 (amended): when the backend client can be constructed, the
operations surface every backend-reported failure as a plain
`{error: string}` value; the `try`/`catch`-wrapped `login` never lets an
exception escape, converting a thrown configuration error into the fixed
service-unavailable message; but with backend credentials absent,
`createClient` throws and `register` (built without `try`/`catch`, like the
other operations) propagates that exception uncaught across the request
boundary. -/
theorem auth_error_shape (env : String → Option String) (e : Option String) :
    (∀ c, createClient env = .ok c → register env e = .ok e) ∧
    (∃ r, login env e = .ok r) ∧
    (∀ msg, createClient env = .error msg → register env e = .error msg) := by
  refine ⟨?_, ?_, ?_⟩
  · intro c hc
    cases e <;> simp [register, hc]
  · cases hb : loginBody env e with
    | ok r => exact ⟨r, by simp [login, hb]⟩
    | error m =>
      exact ⟨some "Authentication service unavailable. Please check your Supabase configuration.",
        by simp [login, hb]⟩
  · intro msg hc
    cases e <;> simp [register, hc]

theorem auth_error_shape_witness :
    register (fun k => if k = "NEXT_PUBLIC_SUPABASE_URL" then some "url" else some "key")
      (some "email taken") = .ok (some "email taken") :=
  (auth_error_shape (fun k => if k = "NEXT_PUBLIC_SUPABASE_URL" then some "url" else some "key")
      (some "email taken")).1 ⟨"url", "key"⟩ rfl

/-- C8 counterexample: with every backend credential absent, `register`
propagates the exception thrown by `createClient` (via `getEnvVariable`)
uncaught across the request boundary instead of returning a plain
`{error: string}` value. -/
theorem register_missing_env_cex :
    register (fun _ => none) none =
      .error "Environment variable NEXT_PUBLIC_SUPABASE_URL is not set" := rfl

end AlxPolly
